import Mathlib

/-!
Verification of the fake-pinterest Express/Mongoose server against its
natural-language specification.

The server's request handlers are shallowly embedded as pure Lean
functions.  External effects (the MongoDB collections, the uploads
directory on disk, the outbound HEAD request, Firebase token
verification, JSON parsing by the runtime) are passed in explicitly:
the database is a `List` of records, the uploads directory a
`List String` of stored file names, and each external call's outcome is
an argument of the embedded handler.  Machine integers do not overflow
in any modelled path, so numbers are `Nat`.  String primitives of the
JavaScript runtime (`startsWith`, `split`, `includes`) are embedded as
structurally recursive functions over the character list of the string.
-/

/-- JavaScript `s.startsWith(pat)`. -/
def strStartsWith (s pat : String) : Bool :=
  pat.data.isPrefixOf s.data

/-- Characters of `s` after the first occurrence of `pat`, if `pat`
occurs in `s` (the tail JavaScript's `split` continues scanning from). -/
def afterFirstPat (pat : List Char) : List Char → Option (List Char)
  | [] => none
  | c :: rest =>
    if pat.isPrefixOf (c :: rest) then some ((c :: rest).drop pat.length)
    else afterFirstPat pat rest

/-- Characters before the next occurrence of `pat` (the end of a
JavaScript `split` chunk). -/
def takeUntilPat (pat : List Char) : List Char → List Char
  | [] => []
  | c :: rest => if pat.isPrefixOf (c :: rest) then [] else c :: takeUntilPat pat rest

/-- JavaScript `s.includes(pat)` for a non-empty pattern. -/
def strIncludes (s pat : String) : Bool :=
  (afterFirstPat pat.data s.data).isSome

/-- JavaScript `s.split(pat)[1]` for a non-empty pattern that occurs in
`s`: the chunk between the first occurrence of `pat` and the following
occurrence (or the end of the string). -/
def splitSecond (s pat : String) : String :=
  String.mk (takeUntilPat pat.data ((afterFirstPat pat.data s.data).getD []))

/-- Outcome of the outbound `axios.head` call in `isValidImageUrl`
(`server/routes/images.js`).  `none` stands for a network failure or
timeout (axios throws); a response carries the HTTP status and the
optional `content-type` header. -/
structure HeadResponse where
  status : Nat
  contentType : Option String
deriving DecidableEq, Repr

/-- A persisted `Image` document as the routes read and write it
(`server/routes/images.js`): URL, title, description, tags, owning user
reference and creation timestamp. -/
structure Image where
  id : Nat
  imageUrl : String
  title : String
  description : String
  tags : List String
  user : Nat
  createdAt : Nat
deriving DecidableEq, Repr

/-- JavaScript regex class `\w` (no unicode flag): ASCII letters, digits
and underscore. -/
def isWordChar (c : Char) : Bool :=
  c.isAlphanum || c == '_'

/-- Characters admitted by `[\w.-]` in the URL regex of
`isValidImageUrl`. -/
def isHostChar (c : Char) : Bool :=
  isWordChar c || c == '.' || c == '-'

/-- Characters admitted by `[/\w.-]` in the URL regex of
`isValidImageUrl`. -/
def isPathChar (c : Char) : Bool :=
  isHostChar c || c == '/'

/-- The language of the regex `^(https?:\/\/)([\w.-]+)([/\w.-]*)*\/?$`
from `isValidImageUrl` (`server/routes/images.js`): an `http://` or
`https://` scheme, then a first character from `[\w.-]`, then any
characters from `[/\w.-]` (the nested star and the optional trailing
slash collapse into that class). -/
def matchesUrlPattern (url : String) : Bool :=
  let rest :=
    if strStartsWith url ("https://") then some (url.data.drop 8)
    else if strStartsWith url ("http://") then some (url.data.drop 7)
    else none
  match rest with
  | none => false
  | some r =>
    match r with
    | [] => false
    | c :: cs => isHostChar c && cs.all isPathChar

/-- `isValidImageUrl` from `server/routes/images.js`: empty URL fails;
then the regex test; then the HEAD request with
`validateStatus: status < 400` (a status of 400 or above, like a network
error, makes axios throw, and the `catch` returns `false`); finally the
`content-type` header must be present and start with `image/`. -/
def isValidImageUrl (url : String) (head : Option HeadResponse) : Bool :=
  if url = "" then false
  else if matchesUrlPattern url then
    match head with
    | none => false
    | some r =>
      if r.status < 400 then
        match r.contentType with
        | some ct => strStartsWith ct ("image/")
        | none => false
      else false
  else false

/-- The claim's success condition for the HEAD check, written out: the
request got a response whose status axios accepts (`< 400`) and whose
`content-type` header begins with `image/`. -/
def HeadOk (head : Option HeadResponse) : Prop :=
  ∃ r, head = some r ∧ r.status < 400 ∧
    ∃ ct, r.contentType = some ct ∧ strStartsWith ct ("image/") = true

/-- Result of the `POST /api/images/url` handler. -/
inductive UrlAddResult where
  | missingUrl
  | invalidImageUrl
  | created (img : Image)
deriving DecidableEq, Repr

/-- The `POST /api/images/url` handler (`server/routes/images.js`):
missing URL gives a 400 `Image URL is required`; a URL rejected by
`isValidImageUrl` gives a 400 `Invalid image URL`; otherwise the image
is persisted with `title || ''`, `description || ''` and
`Array.isArray(tags) ? tags : []`, owned by the caller. -/
def addByUrl (imageUrl : String) (head : Option HeadResponse)
    (title description : Option String) (tags : Option (List String))
    (userId newId now : Nat) : UrlAddResult :=
  if imageUrl = "" then .missingUrl
  else if isValidImageUrl imageUrl head then
    .created { id := newId, imageUrl := imageUrl,
               title := title.getD (""), description := description.getD (""),
               tags := tags.getD [], user := userId, createdAt := now }
  else .invalidImageUrl

/-- A `User` document with the fields the routes read and write
(`server/routes/auth.js`, `server/middleware/authMiddleware.js`,
`server/routes/images.js`; schema in `server/models/User.js`, staged
inside `server/config/db.js`): external Firebase identity, profile
fields, and the `role` consulted by the delete handler.  The schema
persists no `isAdmin` field — its `isAdmin` is a getter-only virtual
over `role` — so the `isAdmin` field here carries that virtual's value
for the document (`role === 'admin'`). -/
structure User where
  id : Nat
  firebaseUid : String
  username : String
  email : Option String
  displayName : String
  avatarUrl : Option String
  isAdmin : Bool
  role : String
deriving DecidableEq, Repr

/-- The schema default of the `role` field:
`role: { type: String, enum: ['user', 'admin'], default: 'user' }` in
the `User` schema (`server/models/User.js`, staged inside
`server/config/db.js`).  A document created without an explicit role —
as the creation handler does — carries this value. -/
def defaultRole : String := "user"

/-- The `User` schema's getter-only virtual
`isAdmin`: `this.role === 'admin'` (`server/models/User.js`, staged
inside `server/config/db.js`).  It is derived from `role`, never
persisted, and has no setter. -/
def isAdminVirtual (u : User) : Bool :=
  u.role == ("admin")

/-- Reasons of the `Unauthenticated` outcome, as the `error` codes the
middleware returns with a 401. -/
inductive AuthReason where
  | USER_NOT_FOUND
  | INVALID_TOKEN
  | UNAUTHORIZED_ACCESS
deriving DecidableEq, Repr

/-- Terminal states of the per-request session-resolution state
machine. -/
inductive AuthOutcome where
  | authenticated (u : User)
  | unauthenticated (reason : AuthReason)
deriving DecidableEq, Repr

/-- What `ensureAuthenticated` leaves behind: the outcome, the
`req.session.userId` value after the call, and whether the middleware
destroyed the session. -/
structure AuthResult where
  outcome : AuthOutcome
  sessionAfter : Option Nat
  sessionDestroyed : Bool
deriving DecidableEq, Repr

/-- `authHeader.split('Bearer ')[1]` from the middleware. -/
def extractBearerToken (h : String) : String :=
  splitSecond h ("Bearer ")

/-- `ensureAuthenticated` from `server/middleware/authMiddleware.js`.
`verify` is the outcome of `admin.auth().verifyIdToken`: `some uid` when
the Credential Verifier accepts the token, `none` when it throws.  The
session branch: a stored user id that resolves authenticates; one that
does not resolve returns 401 `USER_NOT_FOUND` (the code does not touch
the session).  The bearer branch: on a verified token the user is
looked up by `firebaseUid`; a missing user returns 401 `USER_NOT_FOUND`
(no user is created); a found user has its id written into the session.
Without session or bearer header: 401 `UNAUTHORIZED_ACCESS`. -/
def ensureAuthenticated (sessionUserId : Option Nat) (users : List User)
    (authHeader : Option String) (verify : String → Option String) : AuthResult :=
  match sessionUserId with
  | some userId =>
    match users.find? (fun u => u.id == userId) with
    | none => ⟨.unauthenticated .USER_NOT_FOUND, some userId, false⟩
    | some u => ⟨.authenticated u, some userId, false⟩
  | none =>
    match authHeader with
    | none => ⟨.unauthenticated .UNAUTHORIZED_ACCESS, none, false⟩
    | some h =>
      if strStartsWith h ("Bearer ") then
        match verify (extractBearerToken h) with
        | none => ⟨.unauthenticated .INVALID_TOKEN, none, false⟩
        | some uid =>
          match users.find? (fun u => u.firebaseUid == uid) with
          | none => ⟨.unauthenticated .USER_NOT_FOUND, none, false⟩
          | some u => ⟨.authenticated u, some u.id, false⟩
      else ⟨.unauthenticated .UNAUTHORIZED_ACCESS, none, false⟩

/-- Response of the `GET /api/auth/user` handler
(`server/routes/auth.js`), with the session state it leaves behind. -/
structure GetUserResult where
  status : Nat
  user : Option User
  sessionAfter : Option Nat
  sessionDestroyed : Bool
deriving DecidableEq, Repr

/-- The `GET /api/auth/user` handler (`server/routes/auth.js`): no
session gives 401; a session whose user id no longer resolves is
destroyed (`req.session.destroy`) with a 401; otherwise 200 with the
user projection. -/
def getUser (sessionUserId : Option Nat) (users : List User) : GetUserResult :=
  match sessionUserId with
  | none => ⟨401, none, none, false⟩
  | some uid =>
    match users.find? (fun u => u.id == uid) with
    | none => ⟨401, none, none, true⟩
    | some u => ⟨200, some u, some uid, false⟩

/-- Result codes of the `DELETE /api/images/:id` handler: 404, 403, or
the 200 success. -/
inductive DeleteResult where
  | notFound
  | forbidden
  | deleted
deriving DecidableEq, Repr

/-- State left by the delete handler: the response code, the image
collection, the uploads directory, and whether the handler entered the
file-cleanup branch (called into the filesystem at all). -/
structure DeleteOutcome where
  result : DeleteResult
  db : List Image
  files : List String
  fsTouched : Bool
deriving DecidableEq, Repr

/-- The `DELETE /api/images/:id` handler (`server/routes/images.js`):
404 when the id does not resolve; 403 unless the caller is the owner or
`req.user.role === 'admin'`; then, when `image.imageUrl` contains the
substring `/uploads/`, the file named by `split('/uploads/')[1]` is
unlinked if it exists (`existsSync` guard, so a missing file is
skipped); finally the record is removed (`findByIdAndDelete`). -/
def deleteImage (imgId : Nat) (principal : User) (db : List Image)
    (files : List String) : DeleteOutcome :=
  match db.find? (fun i => i.id == imgId) with
  | none => ⟨.notFound, db, files, false⟩
  | some image =>
    let isAdmin := principal.role == ("admin")
    let isOwner := image.user == principal.id
    if !isOwner && !isAdmin then ⟨.forbidden, db, files, false⟩
    else if strIncludes image.imageUrl ("/uploads/") then
      ⟨.deleted, db.filter (fun i => i.id != imgId),
        files.erase (splitSecond image.imageUrl ("/uploads/")), true⟩
    else ⟨.deleted, db.filter (fun i => i.id != imgId), files, false⟩

/-- The specification's own notion of "the image's URL indicates
server-local storage": it matches the uploads path prefix of this
server, i.e. starts with the server's base URL followed by
`/uploads/` (spec §4.5 and glossary "Local upload").  This definition
follows the spec's words, to be compared with the code's substring
test. -/
def specServerLocalUrl (baseUrl url : String) : Bool :=
  strStartsWith url (baseUrl ++ ("/uploads/"))

/-- `Math.ceil(total / limit)` as the listing handlers compute the
`pages` field (`server/routes/images.js`), on naturals. -/
def ceilDiv (a b : Nat) : Nat :=
  (a + b - 1) / b

/-- The `{total, page, limit, pages}` pagination envelope returned by
the listing and search handlers. -/
structure PageInfo where
  total : Nat
  page : Nat
  limit : Nat
  pages : Nat
deriving DecidableEq, Repr

/-- Body of the `GET /api/images` response. -/
structure ListResponse where
  images : List Image
  pagination : PageInfo
deriving DecidableEq, Repr

/-- Insertion into a list kept in descending `key` order (mirrors the
database's `sort({createdAt: -1})` respectively
`sort({score: textScore})`). -/
def insertDesc (key : α → Nat) (x : α) : List α → List α
  | [] => [x]
  | y :: ys => if key y < key x then x :: y :: ys else y :: insertDesc key x ys

/-- Sorting into descending `key` order. -/
def sortByDesc (key : α → Nat) : List α → List α
  | [] => []
  | x :: xs => insertDesc key x (sortByDesc key xs)

/-- The `GET /api/images` handler (`server/routes/images.js`): sort by
`createdAt` descending, `skip((page-1)*limit)`, `limit(limit)`, and the
envelope with `total = countDocuments()` and
`pages = Math.ceil(total/limit)`.  The `GET /api/images/user/:username`
handler is the same function applied to the user's images. -/
def listImages (db : List Image) (limit page : Nat) : ListResponse :=
  let skip := (page - 1) * limit
  let sorted := sortByDesc (fun i => i.createdAt) db
  { images := (sorted.drop skip).take limit,
    pagination := { total := db.length, page := page, limit := limit,
                    pages := ceilDiv db.length limit } }

/-- A document of the text-search result set: the image together with
the relevance score (`$meta: textScore`) the database computed for the
query. -/
structure ScoredImage where
  image : Image
  score : Nat
deriving DecidableEq, Repr

/-- Result of the `GET /api/images/search` handler. -/
inductive SearchResult where
  | missingQuery
  | results (images : List Image) (pagination : PageInfo)
deriving DecidableEq, Repr

/-- The `GET /api/images/search` handler (`server/routes/images.js`):
empty query gives the 400 `Search query is required`; otherwise the
matching documents are sorted by relevance score (`textScore`)
descending — not by creation time — then paginated with the same
skip/limit and envelope as the listing. -/
def searchImages (q : String) (found : List ScoredImage)
    (limit page : Nat) : SearchResult :=
  if q = "" then .missingQuery
  else
    let skip := (page - 1) * limit
    let sorted := sortByDesc (fun s => s.score) found
    .results (((sorted.drop skip).take limit).map (fun s => s.image))
      { total := found.length, page := page, limit := limit,
        pages := ceilDiv found.length limit }

/-- The uploaded file as multer presents it to `fileFilter`: the
client-declared MIME type and original name. -/
structure UploadedFile where
  mimetype : String
  originalname : String
deriving DecidableEq, Repr

/-- `fileFilter` from `server/routes/images.js`: accept exactly the
files whose declared MIME type starts with `image/`; otherwise multer
receives `new Error('Only image files are allowed!')`. -/
def fileFilter (mimetype : String) : Bool :=
  strStartsWith mimetype ("image/")

/-- Body of the `POST /api/images/upload` response. -/
inductive UploadBody where
  | serverError
  | noFile
  | created (img : Image)
deriving DecidableEq, Repr

/-- Response and uploads-directory state of the upload pipeline. -/
structure UploadOutcome where
  status : Nat
  body : UploadBody
  files : List String
deriving DecidableEq, Repr

/-- The `POST /api/images/upload` pipeline
(`upload.single('file')` then the handler, `server/routes/images.js`,
with the global error handler of `server/server.js`):
multer's `fileFilter` runs first — a declared MIME type not starting
with `image/` makes it call back with an `Error`, which Express routes
past the handler to the global error handler, a 500 `Server Error`,
and no file is written.  An accepted file is stored under the
generated `storedName`.  The handler then answers 400
`No image file uploaded` without a file; otherwise it builds the local
URL and evaluates `req.body.tags ? JSON.parse(req.body.tags) : []` —
`parsedTags` is the outcome of that `JSON.parse` (`none` when it
throws), and a throw lands in the route's `catch`, a 500
`Server Error`, with the already-stored file left on disk. -/
def postUpload (file : Option UploadedFile) (storedName baseUrl : String)
    (title description tagsField : Option String)
    (parsedTags : Option (List String))
    (userId newId now : Nat) (files : List String) : UploadOutcome :=
  match file with
  | none => ⟨400, .noFile, files⟩
  | some f =>
    if fileFilter f.mimetype then
      let files' := storedName :: files
      let imageUrl := baseUrl ++ ("/uploads/") ++ storedName
      let tagsOutcome : Option (List String) :=
        match tagsField with
        | none => some []
        | some s => if s = "" then some [] else parsedTags
      match tagsOutcome with
      | none => ⟨500, .serverError, files'⟩
      | some tags =>
        let img : Image :=
          { id := newId, imageUrl := imageUrl,
            title := title.getD (""), description := description.getD (""),
            tags := tags, user := userId, createdAt := now }
        ⟨201, .created img, files'⟩
    else ⟨500, .serverError, files⟩

/-- The decoded Firebase ID token as `POST /api/auth/firebase-auth`
destructures it (`server/routes/auth.js`): `uid`, optional profile
fields, and `firebase.sign_in_provider`. -/
structure DecodedToken where
  uid : String
  email : Option String
  name : Option String
  picture : Option String
  provider : Option String
deriving DecidableEq, Repr

/-- JavaScript `s.split(pat)[0]`: the chunk before the first
occurrence of `pat`. -/
def splitFirst (s pat : String) : String :=
  String.mk (takeUntilPat pat.data s.data)

/-- The username chosen for a new user
(`server/routes/auth.js`):
`name || (email ? email.split('@')[0] : "user_" + Date.now())`,
with JavaScript's falsiness of the empty string. -/
def newUsername (tok : DecodedToken) (nowMs : Nat) : String :=
  let fb :=
    match tok.email with
    | some e => if e = "" then ("user_") ++ toString nowMs
                else splitFirst e ("@")
    | none => ("user_") ++ toString nowMs
  match tok.name with
  | some n => if n = "" then fb else n
  | none => fb

/-- The user document built by the creation branch of
`POST /api/auth/firebase-auth` (`server/routes/auth.js`): the Firebase
uid as external identity, the computed username,
`displayName: name || username` and `avatarUrl: picture`.  The handler
also passes `isAdmin: false`, but the schema has no persisted `isAdmin`
path (its `isAdmin` is a getter-only virtual), so the stored document
carries only the `role` default `defaultRole`; the structure's
`isAdmin` field holds the virtual's value for that document, which is
`false` since `role` is `user`. -/
def mkNewUser (tok : DecodedToken) (newId nowMs : Nat) : User :=
  let username := newUsername tok nowMs
  { id := newId, firebaseUid := tok.uid, username := username,
    email := tok.email,
    displayName :=
      match tok.name with
      | some n => if n = "" then username else n
      | none => username,
    avatarUrl := tok.picture, isAdmin := false, role := defaultRole }

/-- The update branch of `POST /api/auth/firebase-auth`: merge changed
profile hints (display name, avatar, email) into the existing user. -/
def updateUser (u : User) (tok : DecodedToken) : User :=
  { u with
    displayName :=
      match tok.name with
      | some n => if n = "" then u.displayName else n
      | none => u.displayName,
    avatarUrl :=
      match tok.picture with
      | some p => if p = "" then u.avatarUrl else some p
      | none => u.avatarUrl,
    email :=
      match tok.email with
      | some e => if e = "" then u.email else some e
      | none => u.email }

/-- Outcome of `user.save()` in the creation branch: success, or the
unique-constraint (duplicate key) violation raised when a concurrent
request created the same `firebaseUid` first. -/
inductive SaveOutcome where
  | ok
  | duplicateKey
deriving DecidableEq, Repr

/-- Response codes of `POST /api/auth/firebase-auth`. -/
inductive FirebaseAuthResult where
  | missingToken
  | invalidToken
  | unsupportedProvider
  | dbError
  | success (u : User)
deriving DecidableEq, Repr

/-- Response and state left by `POST /api/auth/firebase-auth`. -/
structure FirebaseAuthOutcome where
  result : FirebaseAuthResult
  users : List User
  sessionAfter : Option Nat
deriving DecidableEq, Repr

/-- The `POST /api/auth/firebase-auth` handler
(`server/routes/auth.js`): 400 without an id token; 401 when the
Credential Verifier rejects it (`verify = none`); 403 unless
`sign_in_provider` contains `github`; then find-or-create by
`firebaseUid`.  In the creation branch a `save()` failure of any kind —
including the duplicate-key violation of a concurrent creation — is
caught by the generic `catch (dbError)` and answered 500
`Error processing user data`: there is no re-fetch.  On success the
user id is written into the session. -/
def firebaseAuth (idToken : Option String) (verify : Option DecodedToken)
    (users : List User) (save : SaveOutcome)
    (newId nowMs : Nat) : FirebaseAuthOutcome :=
  match idToken with
  | none => ⟨.missingToken, users, none⟩
  | some t =>
    if t = "" then ⟨.missingToken, users, none⟩
    else
      match verify with
      | none => ⟨.invalidToken, users, none⟩
      | some tok =>
        match tok.provider with
        | none => ⟨.unsupportedProvider, users, none⟩
        | some p =>
          if strIncludes p ("github") then
            match users.find? (fun u => u.firebaseUid == tok.uid) with
            | none =>
              let u := mkNewUser tok newId nowMs
              match save with
              | .duplicateKey => ⟨.dbError, users, none⟩
              | .ok => ⟨.success u, u :: users, some u.id⟩
            | some u =>
              let u' := updateUser u tok
              ⟨.success u',
                users.map (fun w => if w.id == u.id then u' else w),
                some u'.id⟩
          else ⟨.unsupportedProvider, users, none⟩

/-- The scheme test `this.imageUrl.match(/^https?:\/\//)` of the
`Image` schema's pre-save hook (`server/models/Image.js`, staged
inside `server/config/db.js`): the anchored regex matches exactly the
strings starting with `http://` or `https://`. -/
def hasUrlScheme (url : String) : Bool :=
  strStartsWith url ("http://") || strStartsWith url ("https://")

/-- The pre-save URL normalization of the `Image` schema
(`server/models/Image.js`, staged inside `server/config/db.js`):
`if (this.imageUrl && !this.imageUrl.match(/^https?:\/\//))
this.imageUrl = 'https://' + this.imageUrl` — a truthy (non-empty) URL
without a scheme is stored prefixed with `https://`; an empty URL or
one with a scheme is left unchanged. -/
def normalizeImageUrl (url : String) : String :=
  if url ≠ "" ∧ hasUrlScheme url = false then ("https://") ++ url
  else url

theorem isValidImageUrl_eq_true_iff (url : String) (head : Option HeadResponse) :
    isValidImageUrl url head = true ↔
      url ≠ "" ∧ matchesUrlPattern url = true ∧ HeadOk head := by
  unfold isValidImageUrl HeadOk
  rcases head with _ | ⟨st, ct⟩
  · by_cases hu : url = "" <;> simp [hu]
  · by_cases hu : url = ""
    · simp [hu]
    · by_cases hp : matchesUrlPattern url
      · rcases ct with _ | s
        · by_cases hs : st < 400 <;> simp [hu, hp, hs]
        · by_cases hs : st < 400 <;> simp [hu, hp, hs]
      · simp [hu, hp]

/-- C4: Add-by-URL succeeds (a 201 `created` response) exactly when the
URL is non-empty, matches the well-formedness regex (scheme + host +
optional path), and the HEAD request within the bounded timeout returns
a status axios accepts with a `content-type` beginning with `image/`;
whenever the URL is non-empty but that check fails (malformed URL,
non-success status, non-image content type, or unreachable host,
i.e. `head = none`), the handler fails with the 400
`InvalidImageUrl` response. -/
theorem addByUrl_success_iff (url : String) (head : Option HeadResponse)
    (title description : Option String) (tags : Option (List String))
    (userId newId now : Nat) :
    ((∃ img, addByUrl url head title description tags userId newId now =
        .created img) ↔
      url ≠ "" ∧ matchesUrlPattern url = true ∧ HeadOk head) ∧
    (url ≠ "" → ¬ (matchesUrlPattern url = true ∧ HeadOk head) →
      addByUrl url head title description tags userId newId now =
        .invalidImageUrl) := by
  unfold addByUrl
  by_cases hu : url = ""
  · simp [hu]
  · by_cases hv : isValidImageUrl url head = true
    · have h := (isValidImageUrl_eq_true_iff url head).mp hv
      refine ⟨?_, ?_⟩
      · simp [hu, hv, h.2.1, h.2.2]
      · intro _ hcon
        exact absurd ⟨h.2.1, h.2.2⟩ hcon
    · have h : ¬ (url ≠ "" ∧ matchesUrlPattern url = true ∧ HeadOk head) :=
        fun hc => hv ((isValidImageUrl_eq_true_iff url head).mpr hc)
      refine ⟨?_, ?_⟩
      · simp only [hv]
        simp only [Bool.false_eq_true, if_false, if_neg hu]
        constructor
        · rintro ⟨img, himg⟩
          cases himg
        · intro hc
          exact absurd hc h
      · intro _ _
        simp [hu, hv]

/-- Witness for C4 at concrete inputs: the URL
`https://example.com/a.jpg` with a `200, image/jpeg` HEAD response is
accepted, and `http://example.com/a.jpg` with an unreachable host is
rejected with `InvalidImageUrl`. -/
theorem addByUrl_success_iff_witness :
    (∃ img, addByUrl ("https://example.com/a.jpg")
        (some ⟨200, some ("image/jpeg")⟩) none none none 7 1 0 =
        .created img) ∧
    addByUrl ("http://example.com/a.jpg") none none none none 7 1 0 =
      .invalidImageUrl := by
  refine ⟨?_, ?_⟩
  · exact (addByUrl_success_iff ("https://example.com/a.jpg")
      (some ⟨200, some ("image/jpeg")⟩) none none none 7 1 0).1.mpr
      ⟨by decide, by decide, ⟨200, some ("image/jpeg")⟩, rfl, by decide,
        ("image/jpeg"), rfl, by decide⟩
  · exact (addByUrl_success_iff ("http://example.com/a.jpg")
      none none none none 7 1 0).2 (by decide)
      (by rintro ⟨-, r, hr, -⟩; cases hr)

/-- Counterexample to C1 at a concrete input: no session, a bearer
token the Credential Verifier accepts (`verify` returns uid `uid1`),
and an empty User Directory (the external identity was previously
unseen).  The middleware rejects with 401 `USER_NOT_FOUND` instead of
creating the User and reaching the Authenticated state. -/
theorem ensureAuthenticated_unseen_rejects :
    (ensureAuthenticated none [] (some ("Bearer tok"))
      (fun _ => some ("uid1"))).outcome = .unauthenticated .USER_NOT_FOUND ∧
    ∀ u, (ensureAuthenticated none [] (some ("Bearer tok"))
      (fun _ => some ("uid1"))).outcome ≠ .authenticated u := by
  refine ⟨by decide, ?_⟩
  intro u h
  rw [show (ensureAuthenticated none [] (some ("Bearer tok"))
      (fun _ => some ("uid1"))).outcome = .unauthenticated .USER_NOT_FOUND
    from by decide] at h
  cases h

/-- C1 (amended): with no session and a bearer token the Credential
Verifier accepts, the middleware looks the User up by external
identity: when an existing User matches, it writes that user's id into
the session and reaches Authenticated; when the identity is previously
unseen it rejects with 401 `USER_NOT_FOUND` and creates nothing (user
creation happens only in `POST /api/auth/firebase-auth`). -/
theorem ensureAuthenticated_bearer (users : List User) (h uid : String)
    (verify : String → Option String)
    (hb : strStartsWith h ("Bearer ") = true)
    (hv : verify (extractBearerToken h) = some uid) :
    (∀ u, users.find? (fun w => w.firebaseUid == uid) = some u →
      ensureAuthenticated none users (some h) verify =
        ⟨.authenticated u, some u.id, false⟩) ∧
    (users.find? (fun w => w.firebaseUid == uid) = none →
      ensureAuthenticated none users (some h) verify =
        ⟨.unauthenticated .USER_NOT_FOUND, none, false⟩) := by
  constructor
  · intro u hu
    simp [ensureAuthenticated, hb, hv, hu]
  · intro hn
    simp [ensureAuthenticated, hb, hv, hn]

/-- Witness for C1 (amended) at a concrete input: the seen identity
`uid1` authenticates and its id is written into the session; with an
empty directory the same request is rejected `USER_NOT_FOUND`. -/
theorem ensureAuthenticated_bearer_witness :
    ensureAuthenticated none
      [⟨9, ("uid1"), ("alice"), none, ("Alice"), none, false, ("user")⟩]
      (some ("Bearer tok")) (fun _ => some ("uid1")) =
      ⟨.authenticated
        ⟨9, ("uid1"), ("alice"), none, ("Alice"), none, false, ("user")⟩,
        some 9, false⟩ ∧
    ensureAuthenticated none [] (some ("Bearer tok"))
      (fun _ => some ("uid1")) =
      ⟨.unauthenticated .USER_NOT_FOUND, none, false⟩ :=
  ⟨(ensureAuthenticated_bearer
      [⟨9, ("uid1"), ("alice"), none, ("Alice"), none, false, ("user")⟩]
      ("Bearer tok") ("uid1") (fun _ => some ("uid1"))
      (by decide) rfl).1
      ⟨9, ("uid1"), ("alice"), none, ("Alice"), none, false, ("user")⟩
      (by decide),
   (ensureAuthenticated_bearer [] ("Bearer tok") ("uid1")
      (fun _ => some ("uid1")) (by decide) rfl).2 (by decide)⟩

/-- Counterexample to C8 at a concrete input: a session stores user id
5 but no such User exists.  The middleware transitions to
Unauthenticated `USER_NOT_FOUND`, yet the session is not destroyed (the
stale id is still stored); the claim's "the session is destroyed" is
false. -/
theorem ensureAuthenticated_stale_session_not_destroyed :
    (ensureAuthenticated (some 5) [] none (fun _ => none)).outcome =
      .unauthenticated .USER_NOT_FOUND ∧
    (ensureAuthenticated (some 5) [] none (fun _ => none)).sessionDestroyed
      ≠ true ∧
    (ensureAuthenticated (some 5) [] none (fun _ => none)).sessionAfter =
      some 5 := by
  refine ⟨by decide, by decide, by decide⟩

/-- C8 (amended): when the session's stored user id no longer resolves
to a User, `ensureAuthenticated` rejects with 401 `USER_NOT_FOUND` but
leaves the session intact (it is not destroyed and still stores the
stale id); the stale session is destroyed only by the
`GET /api/auth/user` handler, which also answers 401. -/
theorem ensureAuthenticated_stale_session (userId : Nat) (users : List User)
    (authHeader : Option String) (verify : String → Option String)
    (hn : users.find? (fun u => u.id == userId) = none) :
    ensureAuthenticated (some userId) users authHeader verify =
      ⟨.unauthenticated .USER_NOT_FOUND, some userId, false⟩ ∧
    (getUser (some userId) users).sessionDestroyed = true ∧
    (getUser (some userId) users).status = 401 := by
  refine ⟨?_, ?_, ?_⟩ <;> simp [ensureAuthenticated, getUser, hn]

/-- Witness for C8 (amended) at a concrete input: session id 5 over an
empty directory. -/
theorem ensureAuthenticated_stale_session_witness :
    ensureAuthenticated (some 5) [] none (fun _ => none) =
      ⟨.unauthenticated .USER_NOT_FOUND, some 5, false⟩ ∧
    (getUser (some 5) ([] : List User)).sessionDestroyed = true :=
  ⟨(ensureAuthenticated_stale_session 5 [] none (fun _ => none)
      (by decide)).1,
   (ensureAuthenticated_stale_session 5 [] none (fun _ => none)
      (by decide)).2.1⟩

theorem deleteImage_deleted_iff (imgId : Nat) (principal : User)
    (db : List Image) (files : List String) :
    (deleteImage imgId principal db files).result = .deleted ↔
      ∃ image, db.find? (fun i => i.id == imgId) = some image ∧
        (image.user = principal.id ∨ principal.role = ("admin")) := by
  cases hfind : db.find? (fun i => i.id == imgId) with
  | none => simp [deleteImage, hfind]
  | some image =>
    by_cases hown : image.user = principal.id
    · by_cases hinc : strIncludes image.imageUrl ("/uploads/") = true <;>
        simp [deleteImage, hfind, hown, hinc]
    · by_cases hadm : principal.role = ("admin")
      · by_cases hinc : strIncludes image.imageUrl ("/uploads/") = true <;>
          simp [deleteImage, hfind, hown, hadm, hinc]
      · simp [deleteImage, hfind, hown, hadm]

/-- Counterexample to C2 at a concrete input: the owner deletes an
image whose URL is the remote third-party URL
`https://evil.com/uploads/cat.jpg`.  The URL does not match the
server's uploads path prefix (base URL `http://localhost:5000`), yet
the handler enters the filesystem branch and unlinks the local file
`cat.jpg`, so "deleting an Image whose URL is a remote third-party URL
never touches the filesystem" is false. -/
theorem deleteImage_remote_url_touches_fs :
    specServerLocalUrl ("http://localhost:5000")
      ("https://evil.com/uploads/cat.jpg") = false ∧
    (deleteImage 1
      ⟨7, ("uid7"), ("bob"), none, ("Bob"), none, false, ("user")⟩
      [⟨1, ("https://evil.com/uploads/cat.jpg"), (""), (""), [], 7, 0⟩]
      [("cat.jpg")]).fsTouched = true ∧
    (deleteImage 1
      ⟨7, ("uid7"), ("bob"), none, ("Bob"), none, false, ("user")⟩
      [⟨1, ("https://evil.com/uploads/cat.jpg"), (""), (""), [], 7, 0⟩]
      [("cat.jpg")]).files ≠ [("cat.jpg")] := by
  refine ⟨by decide, by decide, by decide⟩

/-- C2 (amended): for a delete performed by the owner or an admin on an
existing image, the database record is removed, and the file-cleanup
branch runs if and only if the image's URL contains the substring
`/uploads/` (the code's test — not a true server-local prefix match):
in that branch the file named by `split('/uploads/')[1]` is removed
from the uploads directory if present, and a missing file is not an
error (the delete still succeeds with the directory unchanged);
when the URL does not contain `/uploads/` the filesystem is never
touched. -/
theorem deleteImage_owner_or_admin (imgId : Nat) (principal : User)
    (db : List Image) (files : List String) (image : Image)
    (hfind : db.find? (fun i => i.id == imgId) = some image)
    (hauth : image.user = principal.id ∨ principal.role = ("admin")) :
    (deleteImage imgId principal db files).result = .deleted ∧
    (deleteImage imgId principal db files).db =
      db.filter (fun i => i.id != imgId) ∧
    (strIncludes image.imageUrl ("/uploads/") = true →
      (deleteImage imgId principal db files).fsTouched = true ∧
      (deleteImage imgId principal db files).files =
        files.erase (splitSecond image.imageUrl ("/uploads/"))) ∧
    (strIncludes image.imageUrl ("/uploads/") = false →
      (deleteImage imgId principal db files).fsTouched = false ∧
      (deleteImage imgId principal db files).files = files) ∧
    (splitSecond image.imageUrl ("/uploads/") ∉ files →
      (deleteImage imgId principal db files).files = files) := by
  have hcond : (!(image.user == principal.id) && !(principal.role == ("admin")))
      = false := by
    rcases hauth with h | h <;> simp [h]
  by_cases hinc : strIncludes image.imageUrl ("/uploads/") = true
  · have heq : deleteImage imgId principal db files =
        ⟨.deleted, db.filter (fun i => i.id != imgId),
          files.erase (splitSecond image.imageUrl ("/uploads/")), true⟩ := by
      simp [deleteImage, hfind, hcond, hinc]
    exact ⟨by rw [heq], by rw [heq], fun _ => ⟨by rw [heq], by rw [heq]⟩,
      fun hf => absurd hinc (by simp [hf]),
      fun hm => by rw [heq]; exact List.erase_of_not_mem hm⟩
  · have hinc' : strIncludes image.imageUrl ("/uploads/") = false := by
      simpa using hinc
    have heq : deleteImage imgId principal db files =
        ⟨.deleted, db.filter (fun i => i.id != imgId), files, false⟩ := by
      simp [deleteImage, hfind, hcond, hinc']
    exact ⟨by rw [heq], by rw [heq], fun ht => absurd ht hinc,
      fun _ => ⟨by rw [heq], by rw [heq]⟩, fun _ => by rw [heq]⟩

/-- Witness for C2 (amended) at concrete inputs: the owner deletes a
local upload (URL under the server's `/uploads/` path) and the record
and file both disappear; the owner deletes a plain remote image and the
filesystem is untouched. -/
theorem deleteImage_owner_or_admin_witness :
    (deleteImage 1
      ⟨7, ("uid7"), ("bob"), none, ("Bob"), none, false, ("user")⟩
      [⟨1, ("http://localhost:5000/uploads/f.png"), (""), (""), [], 7, 0⟩]
      [("f.png")]).result = .deleted ∧
    (deleteImage 1
      ⟨7, ("uid7"), ("bob"), none, ("Bob"), none, false, ("user")⟩
      [⟨1, ("http://localhost:5000/uploads/f.png"), (""), (""), [], 7, 0⟩]
      [("f.png")]).files = [] ∧
    (deleteImage 2
      ⟨7, ("uid7"), ("bob"), none, ("Bob"), none, false, ("user")⟩
      [⟨2, ("https://example.com/pic.jpg"), (""), (""), [], 7, 0⟩]
      [("f.png")]).fsTouched = false := by
  refine ⟨?_, ?_, ?_⟩
  · exact (deleteImage_owner_or_admin 1
      ⟨7, ("uid7"), ("bob"), none, ("Bob"), none, false, ("user")⟩
      [⟨1, ("http://localhost:5000/uploads/f.png"), (""), (""), [], 7, 0⟩]
      [("f.png")]
      ⟨1, ("http://localhost:5000/uploads/f.png"), (""), (""), [], 7, 0⟩
      (by decide) (Or.inl rfl)).1
  · have h := (deleteImage_owner_or_admin 1
      ⟨7, ("uid7"), ("bob"), none, ("Bob"), none, false, ("user")⟩
      [⟨1, ("http://localhost:5000/uploads/f.png"), (""), (""), [], 7, 0⟩]
      [("f.png")]
      ⟨1, ("http://localhost:5000/uploads/f.png"), (""), (""), [], 7, 0⟩
      (by decide) (Or.inl rfl)).2.2.1 (by decide)
    rw [h.2]
    decide
  · exact ((deleteImage_owner_or_admin 2
      ⟨7, ("uid7"), ("bob"), none, ("Bob"), none, false, ("user")⟩
      [⟨2, ("https://example.com/pic.jpg"), (""), (""), [], 7, 0⟩]
      [("f.png")]
      ⟨2, ("https://example.com/pic.jpg"), (""), (""), [], 7, 0⟩
      (by decide) (Or.inl rfl)).2.2.2.1 (by decide)).1

theorem length_insertDesc (key : α → Nat) (x : α) (l : List α) :
    (insertDesc key x l).length = l.length + 1 := by
  induction l with
  | nil => rfl
  | cons y ys ih => by_cases h : key y < key x <;> simp [insertDesc, h, ih]

theorem length_sortByDesc (key : α → Nat) (l : List α) :
    (sortByDesc key l).length = l.length := by
  induction l with
  | nil => rfl
  | cons x xs ih => simp [sortByDesc, length_insertDesc, ih]

theorem mem_insertDesc (key : α → Nat) (x a : α) (l : List α) :
    a ∈ insertDesc key x l ↔ a = x ∨ a ∈ l := by
  induction l with
  | nil => simp [insertDesc]
  | cons y ys ih =>
    by_cases h : key y < key x
    · simp [insertDesc, h]
      try tauto
    · simp [insertDesc, h, ih]
      try tauto

theorem pairwise_insertDesc (key : α → Nat) (x : α) (l : List α)
    (hl : l.Pairwise (fun a b => key b ≤ key a)) :
    (insertDesc key x l).Pairwise (fun a b => key b ≤ key a) := by
  induction l with
  | nil => simp [insertDesc]
  | cons y ys ih =>
    rcases List.pairwise_cons.mp hl with ⟨hy, hys⟩
    by_cases h : key y < key x
    · simp only [insertDesc, if_pos h]
      refine List.pairwise_cons.mpr ⟨?_, hl⟩
      intro b hb
      rcases List.mem_cons.mp hb with rfl | hb
      · exact Nat.le_of_lt h
      · exact (hy b hb).trans (Nat.le_of_lt h)
    · simp only [insertDesc, if_neg h]
      refine List.pairwise_cons.mpr ⟨?_, ih hys⟩
      intro b hb
      rcases (mem_insertDesc key x b ys).mp hb with rfl | hb
      · exact Nat.le_of_not_lt h
      · exact hy b hb

theorem pairwise_sortByDesc (key : α → Nat) (l : List α) :
    (sortByDesc key l).Pairwise (fun a b => key b ≤ key a) := by
  induction l with
  | nil => simp [sortByDesc]
  | cons x xs ih => exact pairwise_insertDesc key x _ ih

/-- My `ceilDiv` coincides with Mathlib's ceiling division on `ℕ`. -/
theorem ceilDiv_eq_mathlib (a b : Nat) : ceilDiv a b = a ⌈/⌉ b := rfl

/-- `ceilDiv a b` is the exact ceiling of `a / b`: the least `c` with
`a ≤ b * c`. -/
theorem ceilDiv_least (a b c : Nat) (hb : 0 < b) :
    ceilDiv a b ≤ c ↔ a ≤ b * c := by
  rw [ceilDiv_eq_mathlib]
  exact ceilDiv_le_iff_le_mul hb

/-- Counterexample to C3 at a concrete input: a search for `cat` over
two matching images where the older image (createdAt 1) has the higher
relevance score.  The returned items are ordered by score, so they are
not sorted newest-first. -/
theorem searchImages_not_newest_first :
    searchImages ("cat")
      [⟨⟨1, ("https://a.com/x.png"), (""), (""), [], 7, 1⟩, 10⟩,
       ⟨⟨2, ("https://a.com/y.png"), (""), (""), [], 7, 2⟩, 5⟩] 50 1 =
      .results
        [⟨1, ("https://a.com/x.png"), (""), (""), [], 7, 1⟩,
         ⟨2, ("https://a.com/y.png"), (""), (""), [], 7, 2⟩]
        ⟨2, 1, 50, 1⟩ ∧
    ¬ List.Pairwise (fun a b => b.createdAt ≤ a.createdAt)
      [(⟨1, ("https://a.com/x.png"), (""), (""), [], 7, 1⟩ : Image),
       ⟨2, ("https://a.com/y.png"), (""), (""), [], 7, 2⟩] := by
  constructor
  · decide
  · intro h
    have h2 := (List.pairwise_cons.mp h).1
      ⟨2, ("https://a.com/y.png"), (""), (""), [], 7, 2⟩ (by decide)
    simp at h2

theorem min_sub_cast (limit n s : Nat) :
    ((min limit (n - s) : Nat) : Int) =
      min (limit : Int) (max 0 ((n : Int) - (s : Int))) := by
  omega

/-- C3 (amended): for positive `limit` and `page`, every listing
response carries the envelope `{total, page, limit, pages}` where
`pages` is the exact ceiling of `total/limit` (the least `c` with
`total ≤ limit * c`), the number of returned items is
`min(limit, max(0, total - (page-1)*limit))`, and the items are sorted
newest-first.  Search responses satisfy the same envelope and
item-count invariants, but their items are ranked by relevance score,
not newest-first. -/
theorem listImages_search_pagination (db : List Image) (limit page : Nat)
    (hl : 0 < limit) (hp : 0 < page) :
    ((listImages db limit page).pagination.total = db.length ∧
     (listImages db limit page).pagination.page = page ∧
     (listImages db limit page).pagination.limit = limit ∧
     (∀ c, (listImages db limit page).pagination.pages ≤ c ↔
        db.length ≤ limit * c)) ∧
    ((listImages db limit page).images.length : Int) =
      min (limit : Int)
        (max 0 ((db.length : Int) - ((page : Int) - 1) * (limit : Int))) ∧
    List.Pairwise (fun a b => b.createdAt ≤ a.createdAt)
      (listImages db limit page).images ∧
    ∀ q found, q ≠ "" →
      ∃ imgs, searchImages q found limit page =
          .results imgs
            ⟨found.length, page, limit, ceilDiv found.length limit⟩ ∧
        (imgs.length : Int) =
          min (limit : Int)
            (max 0 ((found.length : Int) - ((page : Int) - 1) * (limit : Int))) := by
  have h1 : ((page - 1 : Nat) : Int) = (page : Int) - 1 := by omega
  have hc : (((page - 1) * limit : Nat) : Int) =
      ((page : Int) - 1) * (limit : Int) := by
    rw [Nat.cast_mul, h1]
  refine ⟨⟨rfl, rfl, rfl, ?_⟩, ?_, ?_, ?_⟩
  · intro c
    exact ceilDiv_least db.length limit c hl
  · have hlen : (listImages db limit page).images.length
        = min limit (db.length - (page - 1) * limit) := by
      simp [listImages, List.length_take, List.length_drop, length_sortByDesc]
    rw [hlen, ← hc, min_sub_cast]
  · exact List.Pairwise.sublist
      ((List.take_sublist _ _).trans (List.drop_sublist _ _))
      (pairwise_sortByDesc _ _)
  · intro q found hq
    refine ⟨(((sortByDesc (fun s => s.score) found).drop
        ((page - 1) * limit)).take limit).map (fun s => s.image),
      by simp only [searchImages, if_neg hq], ?_⟩
    have hlen : ((((sortByDesc (fun s => s.score) found).drop
        ((page - 1) * limit)).take limit).map (fun s => s.image)).length
        = min limit (found.length - (page - 1) * limit) := by
      simp [List.length_map, List.length_take, List.length_drop,
        length_sortByDesc]
    rw [hlen, ← hc, min_sub_cast]

/-- Witness for C3 (amended) at a concrete input: two images, `limit =
1`, `page = 2` — the second page holds the one remaining item and
`pages = 2` is the least page count covering both items. -/
theorem listImages_search_pagination_witness :
    ((listImages
      [⟨1, ("https://a.com/x.png"), (""), (""), [], 7, 1⟩,
       ⟨2, ("https://a.com/y.png"), (""), (""), [], 7, 2⟩] 1 2).images.length
        : Int) =
      min (1 : Int) (max 0 ((2 : Int) - ((2 : Int) - 1) * (1 : Int))) ∧
    ((listImages
      [⟨1, ("https://a.com/x.png"), (""), (""), [], 7, 1⟩,
       ⟨2, ("https://a.com/y.png"), (""), (""), [], 7, 2⟩] 1 2).pagination.pages
        ≤ 2 ↔ 2 ≤ 1 * 2) :=
  ⟨(listImages_search_pagination
      [⟨1, ("https://a.com/x.png"), (""), (""), [], 7, 1⟩,
       ⟨2, ("https://a.com/y.png"), (""), (""), [], 7, 2⟩] 1 2
      (by decide) (by decide)).2.1,
   (listImages_search_pagination
      [⟨1, ("https://a.com/x.png"), (""), (""), [], 7, 1⟩,
       ⟨2, ("https://a.com/y.png"), (""), (""), [], 7, 2⟩] 1 2
      (by decide) (by decide)).1.2.2.2 2⟩

/-- Counterexample to C5 at a concrete input: an upload declared
`application/pdf` is rejected, but the failure is surfaced as a 500
`Server Error` through the global error handler — not as the claimed
400 response. -/
theorem postUpload_non_image_not_400 :
    fileFilter ("application/pdf") = false ∧
    (postUpload (some ⟨("application/pdf"), ("a.pdf")⟩) ("gen.pdf")
      ("http://localhost:5000") none none none none 7 1 0 []).status = 500 ∧
    (postUpload (some ⟨("application/pdf"), ("a.pdf")⟩) ("gen.pdf")
      ("http://localhost:5000") none none none none 7 1 0 []).status ≠ 400 := by
  refine ⟨by decide, by decide, by decide⟩

/-- C5 (amended): for every upload whose declared MIME type does not
start with `image/`, the pipeline fails — the file-filter error is
surfaced by the global error handler as a 500 `Server Error` response
(not a 400) — no file is written to disk and no image is created. -/
theorem postUpload_non_image (f : UploadedFile) (storedName baseUrl : String)
    (title description tagsField : Option String)
    (parsedTags : Option (List String)) (userId newId now : Nat)
    (files : List String)
    (hm : strStartsWith f.mimetype ("image/") = false) :
    postUpload (some f) storedName baseUrl title description tagsField
      parsedTags userId newId now files = ⟨500, .serverError, files⟩ := by
  simp [postUpload, fileFilter, hm]

/-- Witness for C5 (amended) at a concrete input: a `text/plain`
upload is answered 500 with the uploads directory unchanged. -/
theorem postUpload_non_image_witness :
    postUpload (some ⟨("text/plain"), ("n.txt")⟩) ("gen.txt")
      ("http://localhost:5000") none none none none 7 1 0 [("old.png")] =
      ⟨500, .serverError, [("old.png")]⟩ :=
  postUpload_non_image ⟨("text/plain"), ("n.txt")⟩ ("gen.txt")
    ("http://localhost:5000") none none none none 7 1 0 [("old.png")]
    (by decide)

/-- Counterexample to C6 at a concrete input: an accepted `image/png`
upload whose `tags` field is the unparseable string `not json`
(so `JSON.parse` throws) is answered by the route's generic `catch`
with a 500 `Server Error` — not with the claimed 4xx structured
`MalformedTags` body. -/
theorem postUpload_malformed_tags_not_4xx :
    (postUpload (some ⟨("image/png"), ("a.png")⟩) ("gen.png")
      ("http://localhost:5000") none none (some ("not json")) none
      7 1 0 []).status = 500 ∧
    (postUpload (some ⟨("image/png"), ("a.png")⟩) ("gen.png")
      ("http://localhost:5000") none none (some ("not json")) none
      7 1 0 []).body = .serverError ∧
    ¬ (400 ≤ (postUpload (some ⟨("image/png"), ("a.png")⟩) ("gen.png")
      ("http://localhost:5000") none none (some ("not json")) none
      7 1 0 []).status ∧
       (postUpload (some ⟨("image/png"), ("a.png")⟩) ("gen.png")
      ("http://localhost:5000") none none (some ("not json")) none
      7 1 0 []).status < 500) := by
  refine ⟨by decide, by decide, by decide⟩

/-- C6 (amended): for every accepted upload whose `tags` field is
present, non-empty and not parseable JSON, the operation fails, but the
`JSON.parse` exception is caught by the route's generic handler and
surfaced as a 500 `Server Error` — not as a 4xx structured
`MalformedTags` body — and the already-stored file remains in the
uploads directory. -/
theorem postUpload_malformed_tags (f : UploadedFile)
    (storedName baseUrl : String) (title description : Option String)
    (s : String) (userId newId now : Nat) (files : List String)
    (hm : strStartsWith f.mimetype ("image/") = true)
    (hs : s ≠ "") :
    postUpload (some f) storedName baseUrl title description (some s) none
      userId newId now files = ⟨500, .serverError, storedName :: files⟩ := by
  simp [postUpload, fileFilter, hm, hs]

/-- Witness for C6 (amended) at a concrete input. -/
theorem postUpload_malformed_tags_witness :
    postUpload (some ⟨("image/jpeg"), ("b.jpg")⟩) ("gen.jpg")
      ("http://localhost:5000") none none (some ("bad json")) none 7 1 0 [] =
      ⟨500, .serverError, [("gen.jpg")]⟩ :=
  postUpload_malformed_tags ⟨("image/jpeg"), ("b.jpg")⟩ ("gen.jpg")
    ("http://localhost:5000") none none ("bad json") 7 1 0 []
    (by decide) (by decide)

/-- Counterexample to C7 at a concrete input: a verified GitHub token
for the unseen identity `uid1` whose creation `save()` hits the
duplicate-key violation.  The handler answers the 500 database error
and returns no user — it does not re-fetch the concurrently created
User. -/
theorem firebaseAuth_duplicate_race_errors :
    (firebaseAuth (some ("tok"))
      (some ⟨("uid1"), none, some ("Alice"), none, some ("github.com")⟩)
      [] .duplicateKey 1 0).result = .dbError ∧
    ∀ u, (firebaseAuth (some ("tok"))
      (some ⟨("uid1"), none, some ("Alice"), none, some ("github.com")⟩)
      [] .duplicateKey 1 0).result ≠ .success u := by
  refine ⟨by decide, ?_⟩
  intro u h
  rw [show (firebaseAuth (some ("tok"))
      (some ⟨("uid1"), none, some ("Alice"), none, some ("github.com")⟩)
      [] .duplicateKey 1 0).result = .dbError from by decide] at h
  cases h

/-- C7 (amended): when the creation step of the find-or-create path
hits a unique-constraint violation on the external-identity id (a
concurrent request created the same user first), the exception is
caught by the generic database-error handler and surfaced as a 500
`Error processing user data` response: the handler does not re-fetch
the existing User, returns no user, stores nothing, and establishes no
session. -/
theorem firebaseAuth_duplicateKey (idToken : String) (tok : DecodedToken)
    (p : String) (users : List User) (newId nowMs : Nat)
    (ht : idToken ≠ "")
    (hp : tok.provider = some p) (hg : strIncludes p ("github") = true)
    (hn : users.find? (fun u => u.firebaseUid == tok.uid) = none) :
    firebaseAuth (some idToken) (some tok) users .duplicateKey newId nowMs =
      ⟨.dbError, users, none⟩ := by
  simp [firebaseAuth, ht, hp, hg, hn]

/-- Witness for C7 (amended) at a concrete input. -/
theorem firebaseAuth_duplicateKey_witness :
    firebaseAuth (some ("tok"))
      (some ⟨("uid1"), none, some ("Alice"), none, some ("github.com")⟩)
      [] .duplicateKey 1 0 =
      ⟨.dbError, [], none⟩ :=
  firebaseAuth_duplicateKey ("tok")
    ⟨("uid1"), none, some ("Alice"), none, some ("github.com")⟩
    ("github.com") [] 1 0 (by decide) rfl (by decide) (by decide)

/-- C10: every User created through the system's only user-creation
path (`POST /api/auth/firebase-auth`) is non-admin — it carries the
`role` default `user`, so the schema's `isAdmin` virtual reads `false`
— and therefore the delete handler's admin bypass
(`req.user.role === 'admin'`) never applies to a freshly created
principal: its delete succeeds exactly on the images it owns. -/
theorem mkNewUser_no_admin_bypass (tok : DecodedToken) (newId nowMs : Nat)
    (imgId : Nat) (db : List Image) (files : List String) :
    isAdminVirtual (mkNewUser tok newId nowMs) = false ∧
    (mkNewUser tok newId nowMs).role ≠ ("admin") ∧
    ((deleteImage imgId (mkNewUser tok newId nowMs) db files).result =
        .deleted ↔
      ∃ image, db.find? (fun i => i.id == imgId) = some image ∧
        image.user = newId) := by
  refine ⟨by simp [isAdminVirtual, mkNewUser, defaultRole],
    by simp [mkNewUser, defaultRole], ?_⟩
  rw [deleteImage_deleted_iff]
  constructor
  · rintro ⟨image, hf, h | h⟩
    · exact ⟨image, hf, h⟩
    · exact absurd h (by simp [mkNewUser, defaultRole])
  · rintro ⟨image, hf, h⟩
    exact ⟨image, hf, Or.inl h⟩

/-- C9: for every Image accepted for persistence whose URL lacks a
scheme, the stored URL equals the submitted URL prefixed with
`https://`.  The non-emptiness hypothesis is the "accepted for
persistence" guard: `imageUrl` is `required` in the schema, and
Mongoose's required validator for strings rejects the empty string, so
a persisted Image always has a non-empty (truthy) URL, on which the
pre-save hook's `this.imageUrl &&` guard passes. -/
theorem normalizeImageUrl_missing_scheme (url : String)
    (hne : url ≠ "") (h : hasUrlScheme url = false) :
    normalizeImageUrl url = ("https://") ++ url := by
  simp [normalizeImageUrl, hne, h]

/-- Witness for C9 at a concrete input; also checks the hook's
truthiness guard on the empty URL, which is left unchanged. -/
theorem normalizeImageUrl_missing_scheme_witness :
    normalizeImageUrl ("example.com/a.jpg") =
      ("https://") ++ ("example.com/a.jpg") ∧
    normalizeImageUrl ("") = "" :=
  ⟨normalizeImageUrl_missing_scheme ("example.com/a.jpg")
      (by decide) (by decide),
   by decide⟩
